import Mathlib

/-!
Shallow embedding of `actix-web-lets-encrypt` (src/lib.rs): the certificate
lifecycle engine — path resolution, the renewal check, the ACME issuance
sequence, the startup/periodic scheduler, the HTTP-01 challenge responder
and TLS binding.

Conventions used throughout:
* `RPath` models a Rust `PathBuf` as an absolute-flag plus components;
  `RPath.join` has the replace-on-absolute semantics of `PathBuf::join`.
* Machine durations (`std::time::Duration`, nonnegative seconds) are `Nat`;
  timestamps (`chrono::DateTime<Utc>`) are `Int` seconds.
* The filesystem is abstract: a presence predicate plus, for paths holding a
  PEM certificate parseable by `X509::from_pem` with a parseable `notAfter`,
  that timestamp.
* Partial (panicking) Rust code becomes `Option`-valued: `none` models a
  panic (`unwrap`, index out of bounds, `unwrap_or_else(panic!)`).
* External effects (ACME network calls, `bind_openssl`) are oracles: Bool
  outcomes per step, with the observable actions recorded as an event trace.
-/

namespace ALE

/-- Model of a Rust `PathBuf`: whether the path is absolute, and its list of
components. -/
structure RPath where
  absolute : Bool
  components : List String
deriving DecidableEq, Repr

/-- `PathBuf::join` / `push`: an absolute right operand replaces the whole
path, otherwise components are appended. -/
def RPath.join (p q : RPath) : RPath :=
  if q.absolute then q else ⟨p.absolute, p.components ++ q.components⟩

/-- `PathBuf::push` of a single plain (relative) component, as done by the
challenge handler for `".well-known"`, `"acme-challenge"` and the token. -/
def RPath.push (p : RPath) (s : String) : RPath :=
  ⟨p.absolute, p.components ++ [s]⟩

/-- A relative path made of the given components. -/
def RPath.rel (cs : List String) : RPath := ⟨false, cs⟩

/-- An absolute path made of the given components. -/
def RPath.abs (cs : List String) : RPath := ⟨true, cs⟩

def SECS_IN_MINUTE : Nat := 60
def SECS_IN_HOUR : Nat := SECS_IN_MINUTE * 60
def SECS_IN_DAY : Nat := SECS_IN_HOUR * 24

/-- `CertBuilder` (src/lib.rs): one certificate job. Socket addresses are
modelled as opaque strings; durations in whole seconds. -/
structure CertBuilder where
  addrs : List String
  domains : List String
  email : Option String
  production : Bool
  renew_within : Nat
  check_every : Nat
  key_path : Option RPath
  cert_path : Option RPath
deriving DecidableEq, Repr

def CertBuilder.default_production : Bool := true

def CertBuilder.default_renew_within : Nat := 30 * SECS_IN_DAY

def CertBuilder.default_check_every : Nat := 12 * SECS_IN_HOUR

/-- `CertBuilder::new`. -/
def CertBuilder.new (addrs : List String) (domains : List String) : CertBuilder :=
  { addrs := addrs
    domains := domains
    email := none
    production := CertBuilder.default_production
    renew_within := CertBuilder.default_renew_within
    check_every := CertBuilder.default_check_every
    key_path := none
    cert_path := none }

/-- `CertBuilder::update_path`. The source mutates `pathp : &mut Option<PathBuf>`;
here the result is the new contents of the field: `some p` means the field is
set to `Some(p)`, and `none` models the `&domains[0]` index panic (reachable
only when no explicit path was given and `domains` is empty). -/
def CertBuilder.update_path (pathp : Option RPath) (stem : String)
    (ssl_directory : RPath) (domains : List String) : Option RPath :=
  match pathp with
  | none =>
    match domains with
    | [] => none
    | d :: _ => some (ssl_directory.join (RPath.rel [d ++ "_" ++ stem ++ ".pem"]))
  | some path =>
    if path.absolute then some path
    else some (ssl_directory.join path)

/-- `update_key_path` followed by `update_cert_path`, the path-resolution step
`add_cert` performs on a job; `none` models a panic. -/
def CertBuilder.resolve_paths (ssl_directory : RPath) (cb : CertBuilder) :
    Option CertBuilder :=
  match CertBuilder.update_path cb.key_path "key" ssl_directory cb.domains with
  | none => none
  | some kp =>
    match CertBuilder.update_path cb.cert_path "cert" ssl_directory cb.domains with
    | none => none
    | some cp => some { cb with key_path := some kp, cert_path := some cp }

/-- Abstract filesystem: which paths exist, and for a path holding a PEM
certificate parseable by `X509::from_pem` whose `notAfter` parses, that
timestamp (seconds). `notAfter p = none` with `present p = true` models an
unreadable or unparseable file. -/
structure FS where
  present : RPath → Bool
  notAfter : RPath → Option Int

/-- Point update of the filesystem: after writing path `p` it is present,
holding a certificate with expiry `na` (or a non-certificate when `na = none`). -/
def FS.write (fs : FS) (p : RPath) (na : Option Int) : FS :=
  { present := fun q => decide (q = p) || fs.present q
    notAfter := fun q => if q = p then na else fs.notAfter q }

/-- `CertBuilder::key_and_cert_present`: unwraps both path fields (panicking —
`none` — when either is unset), then checks both files exist. -/
def CertBuilder.key_and_cert_present (fs : FS) (cb : CertBuilder) : Option Bool :=
  match cb.key_path, cb.cert_path with
  | some kp, some cp => some (fs.present kp && fs.present cp)
  | _, _ => none

/-- `CertBuilder::needs_building` at current time `now`. Returns `some true`
when either file is absent; otherwise reads and parses the certificate
(`none` — panic — when that fails), computes `notAfter - now`, converts it to a
`std::time::Duration` (`.to_std().unwrap()` — `none` when negative, i.e. the
certificate is already expired) and compares it with `renew_within`. -/
def CertBuilder.needs_building (fs : FS) (now : Int) (cb : CertBuilder) :
    Option Bool :=
  match CertBuilder.key_and_cert_present fs cb with
  | none => none
  | some false => some true
  | some true =>
    match cb.cert_path with
    | none => none
    | some cp =>
      match fs.notAfter cp with
      | none => none
      | some na =>
        let time_remaining : Int := na - now
        if time_remaining < 0 then none
        else some (decide (time_remaining.toNat < cb.renew_within))

/-- `LetsEncrypt`: the engine owning the nonce directory, SSL directory and
the registered jobs. -/
structure LetsEncrypt where
  nonce_directory : RPath
  ssl_directory : RPath
  cert_builders : List CertBuilder
deriving DecidableEq, Repr

def LetsEncrypt.default_nonce_directory : RPath :=
  RPath.abs ["var", "tmp", "lets_encrypt"]

def LetsEncrypt.default_ssl_directory : RPath := RPath.abs ["ssl"]

/-- `LetsEncrypt::encryption_enabler`. -/
def LetsEncrypt.encryption_enabler : LetsEncrypt :=
  { nonce_directory := LetsEncrypt.default_nonce_directory
    ssl_directory := LetsEncrypt.default_ssl_directory
    cert_builders := [] }

/-- `LetsEncrypt::add_cert`: resolves the job's key and cert paths against the
engine's SSL directory, then appends the job; `none` models a panic inside path
resolution. -/
def LetsEncrypt.add_cert (le : LetsEncrypt) (cb : CertBuilder) :
    Option LetsEncrypt :=
  match CertBuilder.resolve_paths le.ssl_directory cb with
  | none => none
  | some cb2 => some { le with cert_builders := le.cert_builders ++ [cb2] }

/-- The observable steps of `LetsEncrypt::build_cert`, in order of occurrence. -/
inductive AcmeEvent where
  | selectDirectory (url : String)
  | registerAccount (email : Option String)
  | authorize (domain : String)
  | saveKeyAuthorization (domain : String) (dir : RPath)
  | validate (domain : String)
  | signCertificate (domains : List String)
  | saveSignedCertificate (path : RPath)
  | savePrivateKey (path : RPath)
deriving DecidableEq, Repr

deriving instance DecidableEq for Except

/-- The production directory URL baked into `acme_client::Directory::lets_encrypt()`. -/
def letsEncryptUrl : String := "https://acme-v01.api.letsencrypt.org/directory"

/-- The staging directory URL passed to `Directory::from_url` in `build_cert`. -/
def stagingUrl : String := "https://acme-staging.api.letsencrypt.org/directory"

/-- Outcomes of the external ACME/network/filesystem steps of one issuance
attempt: `true` means the corresponding fallible call succeeds. -/
structure AcmeOracle where
  directoryOk : Bool → Bool
  registerOk : Bool
  authorizationOk : String → Bool
  hasHttpChallenge : String → Bool
  saveKeyAuthorizationOk : String → Bool
  validateOk : String → Bool
  signOk : Bool
  saveCertOk : Bool
  saveKeyOk : Bool

/-- The per-domain loop of `build_cert`: for each domain in order, request an
authorization, extract its HTTP-01 challenge (`Err` when the CA offers none),
save the key authorization into the nonce directory, then request validation.
On success, returns the per-domain event trace. -/
def buildCertDomains (o : AcmeOracle) (nonce : RPath) :
    List String → Except String (List AcmeEvent)
  | [] => .ok []
  | d :: rest =>
    if !o.authorizationOk d then .error "authorization failed"
    else if !o.hasHttpChallenge d then .error "HTTP challenge not found"
    else if !o.saveKeyAuthorizationOk d then .error "save key authorization failed"
    else if !o.validateOk d then .error "validation failed"
    else
      match buildCertDomains o nonce rest with
      | .error e => .error e
      | .ok evs =>
        .ok ([AcmeEvent.authorize d, AcmeEvent.saveKeyAuthorization d nonce,
              AcmeEvent.validate d] ++ evs)

/-- `LetsEncrypt::build_cert`: select the CA directory (production vs staging),
register the account with the optional contact email, run the per-domain
authorization loop, sign one certificate over the full domain list, then save
the signed chain to `cert_path` and the private key to `key_path` (unwrapped:
`none` models the panic when a path field is unset). The result on success is
the full ordered event trace of the attempt. -/
def LetsEncrypt.build_cert (le : LetsEncrypt) (o : AcmeOracle) (cb : CertBuilder) :
    Option (Except String (List AcmeEvent)) :=
  if !o.directoryOk cb.production then some (.error "directory failed")
  else if !o.registerOk then some (.error "registration failed")
  else
    match buildCertDomains o le.nonce_directory cb.domains with
    | .error e => some (.error e)
    | .ok evs =>
      if !o.signOk then some (.error "signing failed")
      else
        match cb.cert_path with
        | none => none
        | some cp =>
          if !o.saveCertOk then some (.error "save signed certificate failed")
          else
            match cb.key_path with
            | none => none
            | some kp =>
              if !o.saveKeyOk then some (.error "save private key failed")
              else
                some (.ok ([AcmeEvent.selectDirectory
                              (if cb.production then letsEncryptUrl else stagingUrl),
                            AcmeEvent.registerAccount cb.email]
                  ++ evs
                  ++ [AcmeEvent.signCertificate cb.domains,
                      AcmeEvent.saveSignedCertificate cp,
                      AcmeEvent.savePrivateKey kp]))

/-- The world a scheduler step runs in: the filesystem, the current time, the
external ACME outcomes, and the expiry the CA stamps on a newly issued
certificate. -/
structure World where
  fs : FS
  now : Int
  acme : AcmeOracle
  issuedNotAfter : Int

/-- Interpretation of the file-writing events of a successful `build_cert` on
the abstract filesystem: the signed chain becomes a present, parseable
certificate expiring at `issuedNotAfter`; the private key file becomes present
(not a parseable certificate). -/
def applyEvent (issuedNA : Int) (fs : FS) : AcmeEvent → FS
  | AcmeEvent.saveSignedCertificate p => fs.write p (some issuedNA)
  | AcmeEvent.savePrivateKey p => fs.write p none
  | _ => fs

def applyEvents (issuedNA : Int) (fs : FS) (evs : List AcmeEvent) : FS :=
  evs.foldl (applyEvent issuedNA) fs

/-- `LetsEncrypt::cert_built`: when `needs_building` holds, run `build_cert`
inline and `unwrap_or_else(panic!)` its result — so an issuance error, like any
panic along the way, is `none`; returns whether a certificate was built,
together with the world updated by the attempt's file writes. -/
def LetsEncrypt.cert_built (le : LetsEncrypt) (w : World) (cb : CertBuilder) :
    Option (Bool × World) :=
  match CertBuilder.needs_building w.fs w.now cb with
  | none => none
  | some false => some (false, w)
  | some true =>
    match LetsEncrypt.build_cert le w.acme cb with
    | none => none
    | some (.error _) => none
    | some (.ok evs) =>
      some (true, { w with fs := applyEvents w.issuedNotAfter w.fs evs })

/-- The startup loop of `Actor::started`:
`needs_restart = needs_restart || self.cert_built(cert_builder)` — note the
short-circuiting `||`: once `needs_restart` is true, `cert_built` is no longer
called for the remaining jobs. The third component instruments the loop with
the list of jobs for which `cert_built` was actually evaluated, in order. -/
def startup_go (le : LetsEncrypt) :
    Bool → World → List CertBuilder → Option (Bool × World × List CertBuilder)
  | needs_restart, w, [] => some (needs_restart, w, [])
  | needs_restart, w, cb :: rest =>
    if needs_restart then
      match startup_go le true w rest with
      | none => none
      | some (b, w2, ev) => some (b, w2, ev)
    else
      match LetsEncrypt.cert_built le w cb with
      | none => none
      | some (b, w2) =>
        match startup_go le b w2 rest with
        | none => none
        | some (b2, w3, ev) => some (b2, w3, cb :: ev)

/-- Outcome of `Actor::started`: the startup pass panicked; or some job issued
and the system is stopped (restart requested); or no job issued and per-job
periodic timers are armed. -/
inductive StartOutcome where
  | panicked
  | stopped (w : World) (evaluated : List CertBuilder)
  | scheduled (w : World) (evaluated : List CertBuilder)

/-- `Actor::started for LetsEncrypt`: run the startup loop over all jobs; stop
the system if any evaluated job issued, otherwise arm one interval timer per
job. -/
def LetsEncrypt.started (le : LetsEncrypt) (w : World) : StartOutcome :=
  match startup_go le false w le.cert_builders with
  | none => StartOutcome.panicked
  | some (true, w2, ev) => StartOutcome.stopped w2 ev
  | some (false, w2, ev) => StartOutcome.scheduled w2 ev

/-- The jobs the startup pass actually evaluates (calls `cert_built` on), in
order; `none` models a startup panic. -/
def startupEvaluated (le : LetsEncrypt) (w : World) : Option (List CertBuilder) :=
  match startup_go le false w le.cert_builders with
  | none => none
  | some (_, _, ev) => some ev

/-- One firing of a job's `run_interval` callback:
`if act.cert_built(&cert_builder) { actix::System::current().stop(); }`.
`some (true, w)` requests the global stop; `none` models the panic raised by
`cert_built` when the inline issuance fails. -/
def LetsEncrypt.recheck_tick (le : LetsEncrypt) (w : World) (cb : CertBuilder) :
    Option (Bool × World) :=
  LetsEncrypt.cert_built le w cb

/-- The challenge file path for a token:
`nonce_directory/.well-known/acme-challenge/<token>`. -/
def challengePath (nonce_directory : RPath) (token : String) : RPath :=
  ((nonce_directory.push ".well-known").push "acme-challenge").push token

/-- The handler registered by `LetsEncrypt::register` on
`/.well-known/acme-challenge/{token}`: builds the challenge path and calls
`NamedFile::open(path).unwrap()` — `some p` is the successfully opened file
(served with a success status), `none` models the unwrap panic when the file
is absent. -/
def challengeHandle (nonce_directory : RPath) (fs : FS) (token : String) :
    Option RPath :=
  let path := challengePath nonce_directory token
  if fs.present path then some path else none

/-- The loop body of `LetsEncrypt::attach_certificates_to` over the job list:
jobs whose key and cert files are both present are bound — via
`bind_openssl(addrs[0], ssl_builder())` — as (first address, key path, cert
path); other jobs are skipped. `none` models a panic (unset path fields in
`key_and_cert_present`, or `addrs[0]` on an empty address list); `.error`
models a `bind_openssl` failure propagated by `?`. -/
def attach_go (fs : FS) (bindOk : String → Bool) :
    List CertBuilder → Option (Except String (List (String × RPath × RPath)))
  | [] => some (.ok [])
  | cb :: rest =>
    match CertBuilder.key_and_cert_present fs cb with
    | none => none
    | some false => attach_go fs bindOk rest
    | some true =>
      match cb.addrs with
      | [] => none
      | a :: _ =>
        if !bindOk a then some (.error "bind failed")
        else
          match cb.key_path, cb.cert_path with
          | some kp, some cp =>
            match attach_go fs bindOk rest with
            | none => none
            | some (.error e) => some (.error e)
            | some (.ok bs) => some (.ok ((a, kp, cp) :: bs))
          | _, _ => none

/-- `LetsEncrypt::attach_certificates_to`: fold `attach_go` over the engine's
jobs, returning the list of (address, key path, cert path) TLS bindings. -/
def LetsEncrypt.attach_certificates_to (le : LetsEncrypt) (fs : FS)
    (bindOk : String → Bool) :
    Option (Except String (List (String × RPath × RPath))) :=
  attach_go fs bindOk le.cert_builders

/-- Refinement comparison definition, following the spec's words for the
TlsBinder contract: bind exactly the jobs whose two files are both present, to
the job's first configured address. -/
def bindingOf (fs : FS) (cb : CertBuilder) : Option (String × RPath × RPath) :=
  match cb.key_path, cb.cert_path, cb.addrs with
  | some kp, some cp, a :: _ =>
    if fs.present kp && fs.present cp then some (a, kp, cp) else none
  | _, _, _ => none

/-- The expected event trace of the per-domain authorization loop: for each
domain in order, authorize, save the key authorization into the nonce
directory, then validate. -/
def domainTrace (nonce : RPath) : List String → List AcmeEvent
  | [] => []
  | d :: rest =>
    [AcmeEvent.authorize d, AcmeEvent.saveKeyAuthorization d nonce,
     AcmeEvent.validate d] ++ domainTrace nonce rest

/-- Does the registered job satisfy the data-model invariant: both path fields
set and absolute? -/
def jobPathsAbsolute (cb : CertBuilder) : Bool :=
  match cb.key_path, cb.cert_path with
  | some kp, some cp => kp.absolute && cp.absolute
  | _, _ => false

/- Concrete sample values used by witnesses and counterexamples. -/

def ssl0 : RPath := RPath.abs ["ssl"]

def sslRel : RPath := RPath.rel ["ssl"]

def nonceDir : RPath := RPath.abs ["var", "nonce"]

def kA : RPath := RPath.abs ["ssl", "a_key.pem"]

def cA : RPath := RPath.abs ["ssl", "a_cert.pem"]

def kB : RPath := RPath.abs ["ssl", "b_key.pem"]

def cB : RPath := RPath.abs ["ssl", "b_cert.pem"]

def pAbs : RPath := RPath.abs ["etc", "k.pem"]

def pRel : RPath := RPath.rel ["k.pem"]

/-- The empty filesystem: nothing present. -/
def fsEmpty : FS := { present := fun _ => false, notAfter := fun _ => none }

/-- A filesystem where every path is present and, read as a certificate,
expires at time 1000000. -/
def fsAll : FS := { present := fun _ => true, notAfter := fun _ => some 1000000 }

/-- A filesystem with exactly the two paths `kp` and `cp` present; `cp` parses
as a certificate with `notAfter` `na`. -/
def fsPair (kp cp : RPath) (na : Option Int) : FS :=
  { present := fun p => decide (p = kp) || decide (p = cp)
    notAfter := fun p => if p = cp then na else none }

/-- A renewal job for domain `"a"` with resolved absolute paths, a 30-second
renewal window and production CA. -/
def cbA : CertBuilder :=
  { addrs := ["addr1"], domains := ["a"], email := none, production := true
    renew_within := 30, check_every := 5, key_path := some kA, cert_path := some cA }

def cbB : CertBuilder :=
  { addrs := ["addr2"], domains := ["b"], email := none, production := true
    renew_within := 30, check_every := 5, key_path := some kB, cert_path := some cB }

/-- Like `cbA` but covering the two domains `"a"` and `"b"`. -/
def cbTwo : CertBuilder := { cbA with domains := ["a", "b"] }

/-- A job fresh from `CertBuilder::new`: no explicit paths. -/
def cbNoPaths : CertBuilder := CertBuilder.new ["addr1"] ["a"]

/-- `cbNoPaths` after path resolution against the absolute SSL directory `ssl0`. -/
def cbResolved : CertBuilder :=
  { cbNoPaths with
    key_path := some (RPath.abs ["ssl", "a_key.pem"])
    cert_path := some (RPath.abs ["ssl", "a_cert.pem"]) }

/-- An engine with jobs `cbA` and `cbB` registered. -/
def leAB : LetsEncrypt :=
  { nonce_directory := nonceDir, ssl_directory := ssl0, cert_builders := [cbA, cbB] }

/-- An engine with a relative SSL directory and no jobs yet. -/
def leRel : LetsEncrypt :=
  { nonce_directory := nonceDir, ssl_directory := sslRel, cert_builders := [] }

/-- An engine with the absolute SSL directory `ssl0` and no jobs yet. -/
def leSsl0 : LetsEncrypt :=
  { nonce_directory := nonceDir, ssl_directory := ssl0, cert_builders := [] }

/-- `leSsl0` after registering `cbNoPaths`. -/
def leAdded : LetsEncrypt := { leSsl0 with cert_builders := [cbResolved] }

/-- `cbNoPaths` after path resolution against the relative SSL directory
`sslRel`: set, but relative, paths. -/
def cbRelResolved : CertBuilder :=
  { cbNoPaths with
    key_path := some (RPath.rel ["ssl", "a_key.pem"])
    cert_path := some (RPath.rel ["ssl", "a_cert.pem"]) }

/-- `leRel` after registering `cbNoPaths`. -/
def leRelAdded : LetsEncrypt := { leRel with cert_builders := [cbRelResolved] }

/-- An ACME oracle where every external step succeeds. -/
def oracleTrue : AcmeOracle :=
  { directoryOk := fun _ => true, registerOk := true
    authorizationOk := fun _ => true, hasHttpChallenge := fun _ => true
    saveKeyAuthorizationOk := fun _ => true, validateOk := fun _ => true
    signOk := true, saveCertOk := true, saveKeyOk := true }

/-- An ACME oracle where account registration fails. -/
def oracleNoReg : AcmeOracle := { oracleTrue with registerOk := false }

/-- An ACME oracle offering no HTTP-01 challenge for domain `"b"`. -/
def oracleNoChal : AcmeOracle :=
  { oracleTrue with hasHttpChallenge := fun d => !(decide (d = "b")) }

/-- World with an empty filesystem and a fully successful ACME oracle. -/
def wEmpty : World :=
  { fs := fsEmpty, now := 10, acme := oracleTrue, issuedNotAfter := 1000 }

/-- World where every job's files are present and far from expiry. -/
def wFresh : World :=
  { fs := fsAll, now := 0, acme := oracleTrue, issuedNotAfter := 1000 }

/-- World with an empty filesystem where account registration fails. -/
def wFailing : World :=
  { fs := fsEmpty, now := 10, acme := oracleNoReg, issuedNotAfter := 1000 }

/-! ## Theorems -/

/-- C1, counterexample: a job whose key and certificate files are both present
but whose certificate is already expired (`notAfter = 0`, `now = 10`). The
claim's formula says `needs_building` returns `true` (the signed remaining
time `0 - 10` is below the 30-second window), but the code panics
(`to_std().unwrap()` on a negative duration), modelled as `none`. -/
theorem C1_counterexample :
    (fsPair kA cA (some 0)).present kA = true ∧
    (fsPair kA cA (some 0)).present cA = true ∧
    ((0 : Int) - 10 < (30 : Int)) ∧
    CertBuilder.needs_building (fsPair kA cA (some 0)) 10 cbA ≠ some true ∧
    CertBuilder.needs_building (fsPair kA cA (some 0)) 10 cbA = none := by
  decide

/-- C1 (corrected): for a job with resolved paths, `needs_building` returns
`true` whenever either file is absent, for every renewal window; and when both
files are present, the certificate parses, and it has not yet expired
(`now ≤ notAfter`), it returns `true` iff `notAfter - now < renew_within`,
and `false` otherwise. (When the certificate is already expired the check
panics instead of returning — see `needs_building_expired_panics`.) -/
theorem needs_building_correct (fs : FS) (now : Int) (cb : CertBuilder)
    (kp cp : RPath) (na : Int)
    (hk : cb.key_path = some kp) (hc : cb.cert_path = some cp) :
    ((fs.present kp = false ∨ fs.present cp = false) →
       CertBuilder.needs_building fs now cb = some true)
    ∧ (fs.present kp = true → fs.present cp = true → fs.notAfter cp = some na →
       now ≤ na →
       CertBuilder.needs_building fs now cb =
         some (decide ((na - now).toNat < cb.renew_within))) := by
  constructor
  · intro habs
    rcases habs with h | h <;>
      simp [CertBuilder.needs_building, CertBuilder.key_and_cert_present, hk, hc, h]
  · intro h1 h2 hna hle
    simp only [CertBuilder.needs_building, CertBuilder.key_and_cert_present,
      hk, hc, h1, h2, hna, Bool.and_self]
    rw [if_neg (by omega)]

/-- C1 witness: with no files present the check reports `true`; with both
files present and a certificate expiring at 20 while `now = 10` (10 seconds
remaining, inside the 30-second window) it also reports `true`. -/
theorem needs_building_correct_witness :
    CertBuilder.needs_building fsEmpty 10 cbA = some true ∧
    CertBuilder.needs_building (fsPair kA cA (some 20)) 10 cbA = some true := by
  constructor
  · exact (needs_building_correct fsEmpty 10 cbA kA cA 20 rfl rfl).1
      (Or.inl (by decide))
  · simpa using (needs_building_correct (fsPair kA cA (some 20)) 10 cbA kA cA 20
      rfl rfl).2 (by decide) (by decide) (by decide) (by decide)

/-- C10 (confirmed): when both files are present but the certificate's
`notAfter` is strictly in the past, `needs_building` panics (modelled `none`) —
`signed_duration_since` is negative, so `.to_std().unwrap()` fails — instead of
returning `true`, for every renewal window (`cb.renew_within` arbitrary). -/
theorem needs_building_expired_panics (fs : FS) (now : Int) (cb : CertBuilder)
    (kp cp : RPath) (na : Int)
    (hk : cb.key_path = some kp) (hc : cb.cert_path = some cp)
    (h1 : fs.present kp = true) (h2 : fs.present cp = true)
    (hna : fs.notAfter cp = some na) (hlt : na < now) :
    CertBuilder.needs_building fs now cb = none := by
  simp only [CertBuilder.needs_building, CertBuilder.key_and_cert_present,
    hk, hc, h1, h2, hna, Bool.and_self]
  rw [if_pos (by omega)]

/-- C10 witness: a certificate that expired at time 0 checked at time 10
panics for the concrete job `cbA`. -/
theorem needs_building_expired_panics_witness :
    CertBuilder.needs_building (fsPair kA cA (some 0)) 10 cbA = none :=
  needs_building_expired_panics (fsPair kA cA (some 0)) 10 cbA kA cA 0
    rfl rfl (by decide) (by decide) (by decide) (by decide)

/-- C5 (confirmed): for every SSL directory, stem and nonempty domain list,
`update_path` with no explicit path yields
`ssl_directory / "<domains[0]>_<stem>.pem"`; an explicit absolute path is
returned unchanged (the SSL directory ignored); an explicit relative path is
joined onto the SSL directory. -/
theorem update_path_correct (stem : String) (ssl_directory : RPath)
    (domains : List String) (d : String) (ds : List String) (p : RPath)
    (hd : domains = d :: ds) :
    (CertBuilder.update_path none stem ssl_directory domains =
       some (ssl_directory.join (RPath.rel [d ++ "_" ++ stem ++ ".pem"])))
    ∧ (p.absolute = true →
       CertBuilder.update_path (some p) stem ssl_directory domains = some p)
    ∧ (p.absolute = false →
       CertBuilder.update_path (some p) stem ssl_directory domains =
         some (ssl_directory.join p)) := by
  refine ⟨?_, ?_, ?_⟩
  · simp [CertBuilder.update_path, hd]
  · intro h
    simp [CertBuilder.update_path, h]
  · intro h
    simp [CertBuilder.update_path, h]

/-- C5 witness: the three branches at concrete inputs — defaulted name joined
onto `ssl0`, an absolute explicit path kept verbatim, a relative explicit path
joined onto `ssl0`. -/
theorem update_path_correct_witness :
    CertBuilder.update_path none "key" ssl0 ["a"] =
      some (ssl0.join (RPath.rel ["a" ++ "_" ++ "key" ++ ".pem"])) ∧
    CertBuilder.update_path (some pAbs) "key" ssl0 ["a"] = some pAbs ∧
    CertBuilder.update_path (some pRel) "key" ssl0 ["a"] =
      some (ssl0.join pRel) :=
  ⟨(update_path_correct "key" ssl0 ["a"] "a" [] pAbs rfl).1,
   (update_path_correct "key" ssl0 ["a"] "a" [] pAbs rfl).2.1 (by decide),
   (update_path_correct "key" ssl0 ["a"] "a" [] pRel rfl).2.2 (by decide)⟩

/-- Helper: when the SSL directory is absolute, every path `update_path`
produces is absolute. -/
lemma update_path_absolute (pathp : Option RPath) (stem : String)
    (ssl_directory : RPath) (domains : List String) (p : RPath)
    (habs : ssl_directory.absolute = true)
    (h : CertBuilder.update_path pathp stem ssl_directory domains = some p) :
    p.absolute = true := by
  match pathp with
  | none =>
    match domains with
    | [] => simp [CertBuilder.update_path] at h
    | d :: ds =>
      simp [CertBuilder.update_path, RPath.join, RPath.rel] at h
      subst h
      simpa [RPath.join, RPath.rel] using habs
  | some q =>
    by_cases hq : q.absolute = true
    · simp [CertBuilder.update_path, hq] at h
      subst h
      exact hq
    · simp [CertBuilder.update_path, hq] at h
      subst h
      simp [RPath.join, hq, habs]

/-- Helper: a stored absolute path is returned verbatim by `update_path`. -/
lemma update_path_of_absolute (stem : String) (ssl_directory : RPath)
    (domains : List String) (p : RPath) (hp : p.absolute = true) :
    CertBuilder.update_path (some p) stem ssl_directory domains = some p := by
  simp [CertBuilder.update_path, hp]

/-- C6, counterexample: with the relative SSL directory `"ssl"` (as in the
crate's own doc example) and a job with defaulted paths, running the
path-resolution step of `add_cert` a second time changes the paths — the SSL
directory is prepended again — so resolution is not idempotent as claimed. -/
theorem C6_counterexample :
    (CertBuilder.resolve_paths sslRel cbNoPaths).bind
        (CertBuilder.resolve_paths sslRel) ≠
      CertBuilder.resolve_paths sslRel cbNoPaths := by
  decide

/-- C6 (corrected): the path-resolution step performed by `add_cert` is
idempotent provided the SSL directory is absolute: both resolved paths are then
absolute, so a second resolution short-circuits and leaves the job unchanged.
(With a relative SSL directory a second resolution prepends the directory
again — see `C6_counterexample`.) -/
theorem resolve_paths_idempotent (ssl : RPath) (cb cb2 : CertBuilder)
    (habs : ssl.absolute = true)
    (h : CertBuilder.resolve_paths ssl cb = some cb2) :
    CertBuilder.resolve_paths ssl cb2 = some cb2 := by
  unfold CertBuilder.resolve_paths at h
  match hk : CertBuilder.update_path cb.key_path "key" ssl cb.domains with
  | none => rw [hk] at h; exact absurd h (by simp)
  | some kp =>
    rw [hk] at h
    match hc : CertBuilder.update_path cb.cert_path "cert" ssl cb.domains with
    | none => rw [hc] at h; exact absurd h (by simp)
    | some cp =>
      rw [hc] at h
      simp only [Option.some.injEq] at h
      subst h
      have hkp := update_path_absolute cb.key_path "key" ssl cb.domains kp habs hk
      have hcp := update_path_absolute cb.cert_path "cert" ssl cb.domains cp habs hc
      unfold CertBuilder.resolve_paths
      simp [update_path_of_absolute _ _ _ _ hkp, update_path_of_absolute _ _ _ _ hcp]

/-- C6 witness: with the absolute SSL directory `ssl0`, re-resolving the
already-resolved job `cbResolved` leaves it unchanged. -/
theorem resolve_paths_idempotent_witness :
    CertBuilder.resolve_paths ssl0 cbResolved = some cbResolved :=
  resolve_paths_idempotent ssl0 cbNoPaths cbResolved rfl (by decide)

/-- C7, counterexample: registering a job with defaulted paths through
`add_cert` on an engine whose SSL directory is the relative path `"ssl"` (the
crate's own doc example) produces a job whose resolved paths are set but not
absolute — the claimed invariant fails for that configured SSL directory. -/
theorem C7_counterexample :
    (leRel.add_cert cbNoPaths).map
        (fun le => le.cert_builders.all jobPathsAbsolute) = some false := by
  decide

/-- Helper: an explicit absolute stored path survives `update_path` verbatim:
whatever `update_path` returns for it is that same path. -/
lemma update_path_absolute_override (stem : String) (ssl_directory : RPath)
    (domains : List String) (p q : RPath) (hp : p.absolute = true)
    (h : CertBuilder.update_path (some p) stem ssl_directory domains = some q) :
    q = p := by
  simp [CertBuilder.update_path, hp] at h
  exact h.symm

/-- C7 (corrected): for every configured SSL directory, every job registered
via `add_cert` has both its key path and certificate path set (`some`) by the
time issuance or TLS binding runs; the stored paths are additionally absolute
whenever the engine's SSL directory is absolute; and an explicit absolute
user-supplied override is kept verbatim — hence stays absolute — even when the
SSL directory is relative. -/
theorem add_cert_invariant (le : LetsEncrypt) (cb : CertBuilder)
    (le2 : LetsEncrypt) (h : le.add_cert cb = some le2) :
    ∃ cb2 kp cp, le2.cert_builders = le.cert_builders ++ [cb2] ∧
      cb2.key_path = some kp ∧ cb2.cert_path = some cp ∧
      (le.ssl_directory.absolute = true →
        kp.absolute = true ∧ cp.absolute = true) ∧
      (∀ p, cb.key_path = some p → p.absolute = true → kp = p) ∧
      (∀ p, cb.cert_path = some p → p.absolute = true → cp = p) := by
  unfold LetsEncrypt.add_cert at h
  match hres : CertBuilder.resolve_paths le.ssl_directory cb with
  | none => rw [hres] at h; exact absurd h (by simp)
  | some cbr =>
    rw [hres] at h
    simp only [Option.some.injEq] at h
    subst h
    unfold CertBuilder.resolve_paths at hres
    match hk : CertBuilder.update_path cb.key_path "key" le.ssl_directory cb.domains with
    | none => rw [hk] at hres; exact absurd hres (by simp)
    | some kp =>
      rw [hk] at hres
      match hc : CertBuilder.update_path cb.cert_path "cert" le.ssl_directory cb.domains with
      | none => rw [hc] at hres; exact absurd hres (by simp)
      | some cp =>
        rw [hc] at hres
        simp only [Option.some.injEq] at hres
        subst hres
        refine ⟨_, kp, cp, rfl, rfl, rfl, ?_, ?_, ?_⟩
        · intro habs
          exact ⟨update_path_absolute cb.key_path "key" le.ssl_directory
                   cb.domains kp habs hk,
                 update_path_absolute cb.cert_path "cert" le.ssl_directory
                   cb.domains cp habs hc⟩
        · intro p hp hpa
          rw [hp] at hk
          exact update_path_absolute_override "key" le.ssl_directory
            cb.domains p kp hpa hk
        · intro p hp hpa
          rw [hp] at hc
          exact update_path_absolute_override "cert" le.ssl_directory
            cb.domains p cp hpa hc

/-- C7 witness: registering the defaulted job `cbNoPaths` on the engine with
the relative SSL directory `sslRel` still yields set (`some`) paths, and on
the engine with the absolute SSL directory `ssl0` yields set, absolute paths. -/
theorem add_cert_invariant_witness :
    (∃ cb2 kp cp, leRelAdded.cert_builders = leRel.cert_builders ++ [cb2] ∧
      cb2.key_path = some kp ∧ cb2.cert_path = some cp ∧
      (leRel.ssl_directory.absolute = true →
        kp.absolute = true ∧ cp.absolute = true) ∧
      (∀ p, cbNoPaths.key_path = some p → p.absolute = true → kp = p) ∧
      (∀ p, cbNoPaths.cert_path = some p → p.absolute = true → cp = p)) ∧
    (∃ cb2 kp cp, leAdded.cert_builders = leSsl0.cert_builders ++ [cb2] ∧
      cb2.key_path = some kp ∧ cb2.cert_path = some cp ∧
      (leSsl0.ssl_directory.absolute = true →
        kp.absolute = true ∧ cp.absolute = true) ∧
      (∀ p, cbNoPaths.key_path = some p → p.absolute = true → kp = p) ∧
      (∀ p, cbNoPaths.cert_path = some p → p.absolute = true → cp = p)) :=
  ⟨add_cert_invariant leRel cbNoPaths leRelAdded (by decide),
   add_cert_invariant leSsl0 cbNoPaths leAdded (by decide)⟩

/-- Helper: once `needs_restart` is true the startup loop short-circuits —
`cert_built` is not called for any remaining job, the world is unchanged, and
no further job is recorded as evaluated. -/
lemma startup_go_skip (le : LetsEncrypt) (w : World) (ds : List CertBuilder) :
    startup_go le true w ds = some (true, w, []) := by
  induction ds with
  | nil => rfl
  | cons cb rest ih => simp [startup_go, ih]

/-- Helper: when no job in the list needs building, the startup loop evaluates
every job, leaves the world unchanged and reports no restart. -/
lemma startup_go_all_false (le : LetsEncrypt) (w : World) (ds : List CertBuilder)
    (h : ∀ cb ∈ ds, CertBuilder.needs_building w.fs w.now cb = some false) :
    startup_go le false w ds = some (false, w, ds) := by
  induction ds with
  | nil => rfl
  | cons cb rest ih =>
    have hcb : LetsEncrypt.cert_built le w cb = some (false, w) := by
      simp [LetsEncrypt.cert_built, h cb (by simp)]
    have hrest := ih (fun d hd => h d (by simp [hd]))
    simp [startup_go, hcb, hrest]

/-- Helper: when the jobs before `cb` need no building and `cb` itself issues
(`cert_built` returns `true`), the startup loop evaluates exactly the jobs up
to and including `cb` and reports a restart. -/
lemma startup_go_first_true (le : LetsEncrypt) (w : World)
    (ds1 : List CertBuilder) (cb : CertBuilder) (ds2 : List CertBuilder)
    (w2 : World)
    (h1 : ∀ d ∈ ds1, CertBuilder.needs_building w.fs w.now d = some false)
    (h2 : LetsEncrypt.cert_built le w cb = some (true, w2)) :
    startup_go le false w (ds1 ++ cb :: ds2) = some (true, w2, ds1 ++ [cb]) := by
  induction ds1 with
  | nil => simp [startup_go, h2, startup_go_skip]
  | cons d rest ih =>
    have hd : LetsEncrypt.cert_built le w d = some (false, w) := by
      simp [LetsEncrypt.cert_built, h1 d (by simp)]
    have hrest := ih (fun e he => h1 e (by simp [he]))
    simp [startup_go, hd, hrest]

/-- C2, counterexample: an engine with two jobs, both with all files absent and
a fully successful ACME oracle. The first job issues during the startup pass;
because `needs_restart = needs_restart || self.cert_built(..)` short-circuits,
the second job is never checked: only `[cbA]` is evaluated, not the full
collection `[cbA, cbB]`. -/
theorem C2_counterexample :
    startupEvaluated leAB wEmpty = some [cbA] ∧
    leAB.cert_builders = [cbA, cbB] ∧
    ([cbA] : List CertBuilder) ≠ [cbA, cbB] := by
  decide

/-- C2 (corrected): on engine start the scheduler checks jobs synchronously in
collection order, running issuance inline — but stops checking as soon as one
job issues, because the `||` accumulating `needs_restart` short-circuits. When
no job needs issuance every job is evaluated exactly once; when the jobs
before some job `cb` need nothing and `cb` issues, exactly the jobs up to and
including `cb` are evaluated, and later jobs are not checked in that pass. -/
theorem startup_evaluation (le : LetsEncrypt) (w : World) :
    ((∀ cb ∈ le.cert_builders,
        CertBuilder.needs_building w.fs w.now cb = some false) →
      startupEvaluated le w = some le.cert_builders)
    ∧ (∀ ds1 cb ds2 w2, le.cert_builders = ds1 ++ cb :: ds2 →
        (∀ d ∈ ds1, CertBuilder.needs_building w.fs w.now d = some false) →
        LetsEncrypt.cert_built le w cb = some (true, w2) →
        startupEvaluated le w = some (ds1 ++ [cb])) := by
  constructor
  · intro h
    simp [startupEvaluated, startup_go_all_false le w le.cert_builders h]
  · intro ds1 cb ds2 w2 hsplit h1 h2
    simp [startupEvaluated, hsplit, startup_go_first_true le w ds1 cb ds2 w2 h1 h2]

/-- C2 witness: with every file present and fresh, the startup pass evaluates
the whole collection `[cbA, cbB]` exactly once. -/
theorem startup_evaluation_witness :
    startupEvaluated leAB wFresh = some leAB.cert_builders :=
  (startup_evaluation leAB wFresh).1 (by decide)

/-- C3, counterexample: a periodic recheck for job `cbA` whose files are absent
(so issuance runs inline) while ACME account registration fails. `build_cert`
returns an error, and the claim says the failure is contained and retried next
tick — but `cert_built` runs `unwrap_or_else(|e| panic!(..))`, so the timer
callback panics (modelled `none`), terminating the process instead. -/
theorem C3_counterexample :
    LetsEncrypt.build_cert leAB wFailing.acme cbA =
      some (.error "registration failed") ∧
    LetsEncrypt.recheck_tick leAB wFailing cbA = none :=
  ⟨rfl, rfl⟩

/-- C3 (corrected): when a job's periodic recheck finds the certificate needs
building and the inline issuance attempt fails with any error, the callback
panics (`could not create cert`), modelled as `none` — the failure is not
contained to the job's attempt and there is no silent retry on the next
scheduled check. -/
theorem recheck_failure_panics (le : LetsEncrypt) (w : World)
    (cb : CertBuilder) (e : String)
    (h1 : CertBuilder.needs_building w.fs w.now cb = some true)
    (h2 : LetsEncrypt.build_cert le w.acme cb = some (.error e)) :
    LetsEncrypt.recheck_tick le w cb = none := by
  simp [LetsEncrypt.recheck_tick, LetsEncrypt.cert_built, h1, h2]

/-- C3 witness: the failing-registration world makes `cbA`'s recheck tick
panic. -/
theorem recheck_failure_panics_witness :
    LetsEncrypt.recheck_tick leAB wFailing cbA = none :=
  recheck_failure_panics leAB wFailing cbA "registration failed"
    (by decide) (by decide)

/-- C4, counterexample: a request for token `"tok"` with no corresponding file
in the nonce directory. The claim says the responder returns a not-found or
error response without crashing; the handler instead calls
`NamedFile::open(path).unwrap()`, which panics on the absent file (modelled
`none` — no response is produced). -/
theorem C4_counterexample :
    fsEmpty.present (challengePath nonceDir "tok") = false ∧
    challengeHandle nonceDir fsEmpty "tok" = none := by
  decide

/-- C4 (corrected): for every request to the challenge route, the handler
serves the file at `nonce_directory/.well-known/acme-challenge/<token>` with a
success status when it exists; when the file is absent the handler panics on
the `unwrap` of `NamedFile::open` instead of returning a not-found response
(and the empty-token case is unhandled in the handler — the source marks it
`TODO`). -/
theorem challengeHandle_correct (nd : RPath) (fs : FS) (token : String) :
    (fs.present (challengePath nd token) = true →
       challengeHandle nd fs token = some (challengePath nd token))
    ∧ (fs.present (challengePath nd token) = false →
       challengeHandle nd fs token = none) := by
  constructor <;> intro h <;> simp [challengeHandle, h]

/-- C4 witness: with the file present the handler serves it; with it absent
(a different token, to keep this disjoint from the counterexample) the handler
panics. -/
theorem challengeHandle_correct_witness :
    challengeHandle nonceDir fsAll "tok" = some (challengePath nonceDir "tok") ∧
    challengeHandle nonceDir fsEmpty "other" = none :=
  ⟨(challengeHandle_correct nonceDir fsAll "tok").1 (by decide),
   (challengeHandle_correct nonceDir fsEmpty "other").2 (by decide)⟩

/-- Helper: when every per-domain step succeeds, the domain loop of
`build_cert` produces the in-order trace `domainTrace`. -/
lemma buildCertDomains_ok (o : AcmeOracle) (nonce : RPath) (ds : List String)
    (h : ∀ d ∈ ds, o.authorizationOk d = true ∧ o.hasHttpChallenge d = true ∧
        o.saveKeyAuthorizationOk d = true ∧ o.validateOk d = true) :
    buildCertDomains o nonce ds = .ok (domainTrace nonce ds) := by
  induction ds with
  | nil => rfl
  | cons d rest ih =>
    obtain ⟨h1, h2, h3, h4⟩ := h d (by simp)
    have hrest := ih (fun e he => h e (by simp [he]))
    simp [buildCertDomains, domainTrace, h1, h2, h3, h4, hrest]

/-- Helper: when the domains before `d` all pass and the CA offers no HTTP-01
challenge for `d`, the domain loop fails with the source's error message. -/
lemma buildCertDomains_missing (o : AcmeOracle) (nonce : RPath)
    (ds1 : List String) (d : String) (ds2 : List String)
    (h1 : ∀ e ∈ ds1, o.authorizationOk e = true ∧ o.hasHttpChallenge e = true ∧
        o.saveKeyAuthorizationOk e = true ∧ o.validateOk e = true)
    (h2 : o.authorizationOk d = true) (h3 : o.hasHttpChallenge d = false) :
    buildCertDomains o nonce (ds1 ++ d :: ds2) =
      .error "HTTP challenge not found" := by
  induction ds1 with
  | nil => simp [buildCertDomains, h2, h3]
  | cons e rest ih =>
    obtain ⟨g1, g2, g3, g4⟩ := h1 e (by simp)
    have hrest := ih (fun x hx => h1 x (by simp [hx]))
    simp [buildCertDomains, g1, g2, g3, g4, hrest]

/-- C8 (confirmed): for a job with resolved paths, `build_cert` selects the
production CA directory URL exactly when the job's production flag is set and
the staging URL otherwise; when all external steps succeed, the attempt's
event trace processes the domains sequentially in order, writing each domain's
key-authorization file into the nonce directory before requesting its
validation, then signs one certificate over the full ordered domain list and
persists the signed chain to the cert path and the private key to the key
path; and the whole attempt fails when the CA offers no HTTP-01 challenge for
any domain reached. -/
theorem build_cert_correct (le : LetsEncrypt) (o : AcmeOracle)
    (cb : CertBuilder) (kp cp : RPath)
    (hk : cb.key_path = some kp) (hc : cb.cert_path = some cp) :
    ((o.directoryOk cb.production = true ∧ o.registerOk = true ∧
      (∀ d ∈ cb.domains, o.authorizationOk d = true ∧
        o.hasHttpChallenge d = true ∧ o.saveKeyAuthorizationOk d = true ∧
        o.validateOk d = true) ∧
      o.signOk = true ∧ o.saveCertOk = true ∧ o.saveKeyOk = true) →
      le.build_cert o cb = some (.ok
        ([AcmeEvent.selectDirectory
            (if cb.production then letsEncryptUrl else stagingUrl),
          AcmeEvent.registerAccount cb.email]
         ++ domainTrace le.nonce_directory cb.domains
         ++ [AcmeEvent.signCertificate cb.domains,
             AcmeEvent.saveSignedCertificate cp,
             AcmeEvent.savePrivateKey kp])))
    ∧ (∀ ds1 d ds2, cb.domains = ds1 ++ d :: ds2 →
        o.directoryOk cb.production = true → o.registerOk = true →
        (∀ e ∈ ds1, o.authorizationOk e = true ∧ o.hasHttpChallenge e = true ∧
          o.saveKeyAuthorizationOk e = true ∧ o.validateOk e = true) →
        o.authorizationOk d = true → o.hasHttpChallenge d = false →
        le.build_cert o cb = some (.error "HTTP challenge not found")) := by
  constructor
  · rintro ⟨hdir, hreg, hdoms, hsign, hsc, hsk⟩
    simp [LetsEncrypt.build_cert, hdir, hreg, hsign, hk, hc, hsc, hsk,
      buildCertDomains_ok o le.nonce_directory cb.domains hdoms]
  · intro ds1 d ds2 hsplit hdir hreg hds1 hauth hchal
    simp [LetsEncrypt.build_cert, hdir, hreg, hsplit,
      buildCertDomains_missing o le.nonce_directory ds1 d ds2 hds1 hauth hchal]

/-- C8 witness: the two-domain job `cbTwo` under a fully successful oracle
produces the full ordered trace; under an oracle offering no HTTP-01 challenge
for domain `"b"` the whole attempt fails with the source's error. -/
theorem build_cert_correct_witness :
    LetsEncrypt.build_cert leAB oracleTrue cbTwo = some (.ok
      ([AcmeEvent.selectDirectory
          (if cbTwo.production then letsEncryptUrl else stagingUrl),
        AcmeEvent.registerAccount cbTwo.email]
       ++ domainTrace leAB.nonce_directory cbTwo.domains
       ++ [AcmeEvent.signCertificate cbTwo.domains,
           AcmeEvent.saveSignedCertificate cA,
           AcmeEvent.savePrivateKey kA])) ∧
    LetsEncrypt.build_cert leAB oracleNoChal cbTwo =
      some (.error "HTTP challenge not found") :=
  ⟨(build_cert_correct leAB oracleTrue cbTwo kA cA rfl rfl).1 (by decide),
   (build_cert_correct leAB oracleNoChal cbTwo kA cA rfl rfl).2
     ["a"] "b" [] rfl (by decide) (by decide) (by decide) (by decide) (by decide)⟩

/-- Helper: under a well-formed job list (paths set, addresses nonempty, binds
succeeding), the binding loop returns exactly the jobs whose two files are
present, each bound to its first configured address. -/
lemma attach_go_spec (fs : FS) (bindOk : String → Bool)
    (ds : List CertBuilder)
    (h : ∀ cb ∈ ds, cb.key_path.isSome = true ∧ cb.cert_path.isSome = true ∧
        cb.addrs ≠ [] ∧ cb.addrs.head?.all bindOk = true) :
    attach_go fs bindOk ds = some (.ok (ds.filterMap (bindingOf fs))) := by
  induction ds with
  | nil => rfl
  | cons cb rest ih =>
    obtain ⟨hks, hcs, hne, hball⟩ := h cb (by simp)
    obtain ⟨kp, hkp⟩ := Option.isSome_iff_exists.mp hks
    obtain ⟨cp, hcp⟩ := Option.isSome_iff_exists.mp hcs
    have hrest := ih (fun e he => h e (by simp [he]))
    cases haddr : cb.addrs with
    | nil => exact absurd haddr hne
    | cons a as =>
      have hb : bindOk a = true := by
        rw [haddr] at hball
        simpa [Option.all] using hball
      by_cases hpres : (fs.present kp && fs.present cp) = true
      · simp [attach_go, CertBuilder.key_and_cert_present, hkp, hcp, hpres,
          haddr, hb, hrest, bindingOf, List.filterMap_cons]
      · rw [Bool.not_eq_true] at hpres
        simp [attach_go, CertBuilder.key_and_cert_present, hkp, hcp, hpres,
          haddr, hrest, bindingOf, List.filterMap_cons]

/-- C9 (confirmed): for an engine whose jobs all have resolved paths, a
nonempty address list, and whose binds succeed, `attach_certificates_to`
binds exactly those jobs whose key file and certificate file are both present
on disk — presence alone, no expiry re-check (the definition never consults
`notAfter`) — each to its first configured address, and silently skips every
job with either file missing. -/
theorem attach_certificates_correct (le : LetsEncrypt) (fs : FS)
    (bindOk : String → Bool)
    (h : ∀ cb ∈ le.cert_builders, cb.key_path.isSome = true ∧
        cb.cert_path.isSome = true ∧ cb.addrs ≠ [] ∧
        cb.addrs.head?.all bindOk = true) :
    le.attach_certificates_to fs bindOk =
      some (.ok (le.cert_builders.filterMap (bindingOf fs))) :=
  attach_go_spec fs bindOk le.cert_builders h

/-- C9 witness: with only `cbA`'s files on disk, the engine with jobs
`[cbA, cbB]` binds exactly `cbA` to its first address and skips `cbB`. -/
theorem attach_certificates_correct_witness :
    LetsEncrypt.attach_certificates_to leAB (fsPair kA cA (some 100))
      (fun _ => true) = some (.ok [("addr1", kA, cA)]) :=
  attach_certificates_correct leAB (fsPair kA cA (some 100))
    (fun _ => true) (by decide)

end ALE






